import Mathlib

/-!
Verification development for the telegram-auto-send repository.

The Python sources are shallowly embedded as pure Lean functions:

* `database.py` (`Database`): each method becomes a state-passing function on
  `DbState`.  Every method body in the source is wrapped in a
  `try ... except: return <sentinel>` block; that structure is embedded by a
  leading `fail : Bool` oracle that selects the except-branch (the sentinel)
  when the underlying sqlite machinery raises.  Normal operation is `fail = false`.
* `random.randint(a, b)` is embedded by `randint draw a b` where `draw : Nat`
  is the oracle for the random draw; like the original it yields a value in
  `[a, b]` when `a ≤ b` and fails (Python: raises `ValueError`) otherwise.
* timestamps are integers (minutes); `datetime.now()` becomes an explicit
  `now : Int` parameter, `datetime.now().date().isoformat()` an explicit
  `today : String` parameter.
* `session_manager.py` and `auto_sender.py`: transport outcomes of individual
  sends are an oracle `SendOutcome`; the transport calls a run performs are
  collected in a `TransportEvent` trace.
-/

namespace TgBot

/-- Row of the `user_account` table (database.py:32-41). -/
structure UserRow where
  id : Nat
  phone : String
  session_file : String
  is_active : Bool
  created_at : Int
  last_login : Option Int
deriving DecidableEq

/-- Row of the `groups` table (database.py:44-55). -/
structure GroupRow where
  id : Nat
  group_link : String
  group_title : Option String
  group_id_telegram : Option Int
  members_count : Nat
  is_active : Bool
  added_at : Int
  last_message_sent : Option Int
deriving DecidableEq

/-- Row of the `messages` table (database.py:58-70). -/
structure MessageRow where
  id : Nat
  message_text : String
  min_minutes : Int
  max_minutes : Int
  is_active : Bool
  total_sent : Nat
  created_at : Int
  last_sent : Option Int
  next_send : Option Int
deriving DecidableEq

/-- Row of the `statistics` table (database.py:73-82); `date` is UNIQUE. -/
structure StatRow where
  id : Nat
  date : String
  messages_sent : Int
  successful_sends : Int
  failed_sends : Int
deriving DecidableEq

/-- Row of the `settings` table (database.py:85-91); `key` is the primary key. -/
structure SettingRow where
  key : String
  value : String
  description : Option String
deriving DecidableEq

/-- The dict returned by `Database.get_today_stats` (database.py:384-390). -/
structure StatsToday where
  messages_sent : Int
  successful : Int
  failed : Int
deriving DecidableEq

/-- The dict returned by `Database.get_total_stats` (database.py:417-424). -/
structure StatsTotal where
  total_sent : Nat
  total_groups : Nat
  total_messages : Nat
  today_sent : Int
  today_successful : Int
  today_failed : Int
deriving DecidableEq

/-- The whole per-account sqlite database.  The `_seq` fields model the
AUTOINCREMENT counters of the four tables with an integer id. -/
structure DbState where
  user_account : List UserRow
  groups : List GroupRow
  messages : List MessageRow
  statistics : List StatRow
  settings : List SettingRow
  user_seq : Nat
  group_seq : Nat
  msg_seq : Nat
  stat_seq : Nat
deriving DecidableEq

/-- A database with empty tables, as `init_database` creates on first use. -/
def emptyTables : DbState :=
  { user_account := [], groups := [], messages := [], statistics := []
    settings := [], user_seq := 1, group_seq := 1, msg_seq := 1, stat_seq := 1 }

/-- Decimal digits folded into a number; any non-digit character fails. -/
def digitsToNat : List Char → Nat → Option Nat
  | [], acc => some acc
  | c :: cs, acc =>
    if c.isDigit then digitsToNat cs (acc * 10 + (c.toNat - 48)) else none

/-- A decimal integer literal: an optional minus sign, then at least one digit. -/
def pyIntOfChars : List Char → Option Int
  | [] => none
  | c :: cs =>
    if c = '-' then
      match cs with
      | [] => none
      | d :: ds => (digitsToNat (d :: ds) 0).map (fun n => -(n : Int))
    else (digitsToNat (c :: cs) 0).map (fun n => (n : Int))

/-- Python `int(...)` applied to the result of `get_setting` (a decimal string
or `None`); `none` models the raised `ValueError`/`TypeError`. -/
def pyInt (v : Option String) : Option Int :=
  v.bind (fun s => pyIntOfChars s.data)

/-- `random.randint(lo, hi)` with the drawn entropy `draw`: a uniform value in
`[lo, hi]` when `lo ≤ hi`, otherwise a `ValueError` (modelled as `none`). -/
def randint (draw : Nat) (lo hi : Int) : Option Int :=
  if lo ≤ hi then some (lo + (draw : Int) % (hi + 1 - lo)) else none

/-- The four default settings seeded by `Database.init_database`
(database.py:94-99): key, value, description. -/
def default_settings : List (String × String × String) :=
  [("min_interval", "60", "Minimum interval between messages (minutes)"),
   ("max_interval", "90", "Maximum interval between messages (minutes)"),
   ("auto_send", "1", "Auto-send enabled (1/0)"),
   ("send_delay", "2", "Delay between sending to groups (seconds)")]

/-- One `INSERT OR IGNORE INTO settings` of a default row (database.py:101-105). -/
def seed_setting (l : List SettingRow) (kvd : String × String × String) : List SettingRow :=
  if l.any (fun st => st.key == kvd.1) then l
  else l ++ [⟨kvd.1, kvd.2.1, some kvd.2.2⟩]

/-- `Database.init_database` (database.py:26-109): `CREATE TABLE IF NOT EXISTS`
is the identity on an existing `DbState`; the default settings are seeded
insert-if-absent.  Runs on every `Database(account_path)` construction. -/
def init_database (s : DbState) : DbState :=
  { s with settings := default_settings.foldl seed_setting s.settings }

/-- All four default setting keys are present (the state `init_database`
establishes; every account the program ever touches satisfies this). -/
def seeded (s : DbState) : Bool :=
  default_settings.all (fun kvd => s.settings.any (fun st => st.key == kvd.1))

/-- `Database.save_user` (database.py:112-126): `INSERT OR REPLACE` keyed on
the UNIQUE `phone` column; `last_login = CURRENT_TIMESTAMP`. -/
def save_user (fail : Bool) (s : DbState) (now : Int) (phone session_file : String) :
    Bool × DbState :=
  if fail then (false, s)
  else
    (true,
     { s with
       user_account := s.user_account.filter (fun u => u.phone != phone) ++
         [{ id := s.user_seq, phone := phone, session_file := session_file,
            is_active := true, created_at := now, last_login := some now }],
       user_seq := s.user_seq + 1 })

/-- `Database.get_user` (database.py:128-139): first active row or `None`. -/
def get_user (fail : Bool) (s : DbState) : Option UserRow :=
  if fail then none else s.user_account.find? (fun u => u.is_active)

/-- `Database.user_exists` (database.py:141-143). -/
def user_exists (fail : Bool) (s : DbState) : Bool :=
  (get_user fail s).isSome

/-- `Database.add_group` (database.py:146-166): plain INSERT; a duplicate
`group_link` hits the UNIQUE constraint (`IntegrityError`) and returns `False`. -/
def add_group (fail : Bool) (s : DbState) (now : Int) (group_link group_title : String)
    (group_id_telegram : Option Int) (members_count : Nat) : Bool × DbState :=
  if fail then (false, s)
  else if s.groups.any (fun g => g.group_link == group_link) then (false, s)
  else
    (true,
     { s with
       groups := s.groups ++
         [{ id := s.group_seq, group_link := group_link, group_title := some group_title,
            group_id_telegram := group_id_telegram, members_count := members_count,
            is_active := true, added_at := now, last_message_sent := none }],
       group_seq := s.group_seq + 1 })

/-- `Database.get_groups` (database.py:168-182). -/
def get_groups (fail : Bool) (s : DbState) (active_only : Bool) : List GroupRow :=
  if fail then []
  else if active_only then s.groups.filter (fun g => g.is_active) else s.groups

/-- `Database.update_group_status` (database.py:184-197). -/
def update_group_status (fail : Bool) (s : DbState) (group_id : Nat) (active : Bool) :
    Bool × DbState :=
  if fail then (false, s)
  else
    (true,
     { s with groups := s.groups.map (fun g =>
         if g.id == group_id then { g with is_active := active } else g) })

/-- `Database.delete_group` (database.py:199-210). -/
def delete_group (fail : Bool) (s : DbState) (group_id : Nat) : Bool × DbState :=
  if fail then (false, s)
  else (true, { s with groups := s.groups.filter (fun g => g.id != group_id) })

/-- `Database.add_message` (database.py:213-232): the initial `next_send` is
`now + randint(min_minutes, max_minutes)` computed from the arguments of the
call (not from the account settings); schema defaults give `is_active = 1`,
`total_sent = 0`, `last_sent = NULL`. -/
def add_message (fail : Bool) (s : DbState) (now : Int) (draw : Nat)
    (message_text : String) (min_minutes max_minutes : Int) : Bool × DbState :=
  if fail then (false, s)
  else
    match randint draw min_minutes max_minutes with
    | none => (false, s)
    | some j =>
      (true,
       { s with
         messages := s.messages ++
           [{ id := s.msg_seq, message_text := message_text, min_minutes := min_minutes,
              max_minutes := max_minutes, is_active := true, total_sent := 0,
              created_at := now, last_sent := none, next_send := some (now + j) }],
         msg_seq := s.msg_seq + 1 })

/-- `Database.get_messages` (database.py:234-248). -/
def get_messages (fail : Bool) (s : DbState) (active_only : Bool) : List MessageRow :=
  if fail then []
  else if active_only then s.messages.filter (fun m => m.is_active) else s.messages

/-- `Database.get_pending_messages` (database.py:250-264): active messages with
`next_send <= datetime('now')`; a NULL `next_send` never compares true. -/
def get_pending_messages (fail : Bool) (s : DbState) (now : Int) : List MessageRow :=
  if fail then []
  else
    s.messages.filter (fun m =>
      m.is_active &&
        (match m.next_send with
         | some t => decide (t ≤ now)
         | none => false))

/-- `Database.get_setting` (database.py:305-316). -/
def get_setting (fail : Bool) (s : DbState) (key : String) (dflt : Option String) :
    Option String :=
  if fail then dflt
  else
    match s.settings.find? (fun st => st.key == key) with
    | some st => some st.value
    | none => dflt

/-- `Database.update_message_after_send` (database.py:266-289): the jitter
bounds come from the account settings `min_interval`/`max_interval` (not from
the message row); the touched row gets `total_sent + 1`, `last_sent = now`,
`next_send = now + jitter`.  A `ValueError` from `int(...)` or `randint`
takes the except-branch: `False` and no update. -/
def update_message_after_send (fail : Bool) (s : DbState) (now : Int) (draw : Nat)
    (message_id : Nat) : Bool × DbState :=
  if fail then (false, s)
  else
    match pyInt (get_setting false s "min_interval" (some "60")),
          pyInt (get_setting false s "max_interval" (some "90")) with
    | some mn, some mx =>
      match randint draw mn mx with
      | none => (false, s)
      | some j =>
        (true,
         { s with messages := s.messages.map (fun m =>
             if m.id == message_id then
               { m with total_sent := m.total_sent + 1, last_sent := some now,
                        next_send := some (now + j) }
             else m) })
    | _, _ => (false, s)

/-- `Database.delete_message` (database.py:291-302). -/
def delete_message (fail : Bool) (s : DbState) (message_id : Nat) : Bool × DbState :=
  if fail then (false, s)
  else (true, { s with messages := s.messages.filter (fun m => m.id != message_id) })

/-- `Database.set_setting` (database.py:318-332): `INSERT OR REPLACE`; the
replacement row carries no description. -/
def set_setting (fail : Bool) (s : DbState) (key value : String) : Bool × DbState :=
  if fail then (false, s)
  else if s.settings.any (fun st => st.key == key) then
    (true,
     { s with settings := s.settings.map (fun st =>
         if st.key == key then ⟨key, value, none⟩ else st) })
  else (true, { s with settings := s.settings ++ [⟨key, value, none⟩] })

/-- `Database.get_all_settings` (database.py:334-345). -/
def get_all_settings (fail : Bool) (s : DbState) : List (String × String × Option String) :=
  if fail then [] else s.settings.map (fun st => (st.key, st.value, st.description))

/-- The `INSERT ... ON CONFLICT(date) DO UPDATE` of `Database.update_stats`
(database.py:355-362) at the level of the statistics table: additive merge
into the existing row for the date, otherwise insert of a fresh row. -/
def stats_upsert (l : List StatRow) (newId : Nat) (today : String) (a b c : Int) :
    List StatRow :=
  if l.any (fun r => r.date == today) then
    l.map (fun r =>
      if r.date == today then
        { r with messages_sent := r.messages_sent + a,
                 successful_sends := r.successful_sends + b,
                 failed_sends := r.failed_sends + c }
      else r)
  else l ++ [{ id := newId, date := today, messages_sent := a,
               successful_sends := b, failed_sends := c }]

/-- `Database.update_stats` (database.py:348-369). -/
def update_stats (fail : Bool) (s : DbState) (today : String) (a b c : Int) :
    Bool × DbState :=
  if fail then (false, s)
  else
    (true,
     { s with
       statistics := stats_upsert s.statistics s.stat_seq today a b c,
       stat_seq :=
         if s.statistics.any (fun r => r.date == today) then s.stat_seq
         else s.stat_seq + 1 })

/-- Totals stored for a date (first row found for it, zeros when absent). -/
def statsTotalsOf (l : List StatRow) (today : String) : StatsToday :=
  match l.find? (fun r => r.date == today) with
  | some r => ⟨r.messages_sent, r.successful_sends, r.failed_sends⟩
  | none => ⟨0, 0, 0⟩

/-- `Database.get_today_stats` (database.py:371-393). -/
def get_today_stats (fail : Bool) (s : DbState) (today : String) : StatsToday :=
  if fail then ⟨0, 0, 0⟩ else statsTotalsOf s.statistics today

/-- `Database.get_total_stats` (database.py:395-434). -/
def get_total_stats (fail : Bool) (s : DbState) (today : String) : StatsTotal :=
  if fail then ⟨0, 0, 0, 0, 0, 0⟩
  else
    let t := get_today_stats false s today
    { total_sent := (s.messages.map (fun m => m.total_sent)).sum,
      total_groups := (s.groups.filter (fun g => g.is_active)).length,
      total_messages := (s.messages.filter (fun m => m.is_active)).length,
      today_sent := t.messages_sent, today_successful := t.successful,
      today_failed := t.failed }

/-- Transport outcome of one `client.send_message` attempt, the oracle for the
telethon call inside `SessionManager.send_message` (session_manager.py:157-171):
`floodWait` makes `send_message` sleep and return `False`; `permError` is any
other exception caught there; `raised` is an exception thrown outside
`send_message` in the loop body of `send_to_multiple_groups`
(session_manager.py:193-195), also counted as a failure. -/
inductive SendOutcome
  | success
  | floodWait (seconds : Nat)
  | permError
  | raised
deriving DecidableEq

/-- `SessionManager.send_message` (session_manager.py:157-171): `False` when no
client is attached, `True` only on transport success. -/
def sm_send_message (hasClient : Bool) (o : SendOutcome) : Bool :=
  hasClient &&
    (match o with
     | SendOutcome.success => true
     | _ => false)

/-- Loop body of `SessionManager.send_to_multiple_groups`
(session_manager.py:182-195): walks the group list in order, classifying each
attempt, with a per-iteration `try/except` so one failure never stops the
loop.  Returns the final `(successful, failed)` counters and, as a trace, the
groups attempted in order. -/
def send_to_multiple_groups_go (outcome : Nat → SendOutcome) :
    List GroupRow → Nat → Nat × Nat → (Nat × Nat) × List GroupRow
  | [], _, acc => (acc, [])
  | g :: gs, i, acc =>
    let acc1 :=
      match outcome i with
      | SendOutcome.raised => (acc.1, acc.2 + 1)
      | o => if sm_send_message true o then (acc.1 + 1, acc.2) else (acc.1, acc.2 + 1)
    let r := send_to_multiple_groups_go outcome gs (i + 1) acc1
    (r.1, g :: r.2)

/-- `SessionManager.send_to_multiple_groups` (session_manager.py:173-197):
with no client attached returns `(0, len(groups))` without attempting anything. -/
def send_to_multiple_groups (hasClient : Bool) (outcome : Nat → SendOutcome)
    (groups : List GroupRow) : (Nat × Nat) × List GroupRow :=
  if hasClient then send_to_multiple_groups_go outcome groups 0 (0, 0)
  else ((0, groups.length), [])

/-- A transport call performed during a dispatch pass: establishing a session,
or one send attempt (message index, group row id). -/
inductive TransportEvent
  | connect
  | send (messageIdx : Nat) (groupId : Nat)
deriving DecidableEq

/-- Environment of one `AutoSender` pass: the clock, today's date string, the
per-message random draw used by `update_message_after_send`, the result of
`get_or_create_session` (`sessionAvailable`: a manager was returned;
`sessionConnected`: `is_connected()`; `clientPresent`: `self.client` is set
inside the send loop), the transport calls that session acquisition itself
performed, and the per-message/per-group transport outcomes. -/
structure SendEnv where
  now : Int
  today : String
  rng : Nat → Nat
  sessionAvailable : Bool
  sessionConnected : Bool
  clientPresent : Bool
  sessionEvents : List TransportEvent
  outcome : Nat → Nat → SendOutcome

/-- `AutoSender.send_message` (auto_sender.py:84-105): fan one message out to
all groups, then `update_message_after_send` and `update_stats`. -/
def pa_send_message (env : SendEnv) (groups : List GroupRow) (i : Nat) (m : MessageRow)
    (acc : DbState × List TransportEvent) : DbState × List TransportEvent :=
  let r := send_to_multiple_groups env.clientPresent (env.outcome i) groups
  let s1 := (update_message_after_send false acc.1 env.now (env.rng i) m.id).2
  let s2 := (update_stats false s1 env.today (r.1.1 + r.1.2) r.1.1 r.1.2).2
  (s2, acc.2 ++ r.2.map (fun g => TransportEvent.send i g.id))

/-- The `for message in pending_messages` loop of `AutoSender.process_account`
(auto_sender.py:81-82). -/
def pa_loop (env : SendEnv) (groups : List GroupRow) :
    List MessageRow → Nat → DbState × List TransportEvent → DbState × List TransportEvent
  | [], _, acc => acc
  | m :: ms, i, acc => pa_loop env groups ms (i + 1) (pa_send_message env groups i m acc)

/-- `AutoSender.process_account` (auto_sender.py:51-82).  The `Database`
constructor re-runs `init_database`; the pass then returns early when
auto-send is off, no message is due, no group is active, or no connected
session is available; otherwise it parses `send_delay` (an unparsable value
makes `int(...)` raise out of the coroutine, the `.error` case) and fans out
every due message.  The second component is the trace of transport calls. -/
def process_account (env : SendEnv) (s0 : DbState) :
    Except String (DbState × List TransportEvent) :=
  let s := init_database s0
  if get_setting false s "auto_send" (some "1") ≠ some "1" then Except.ok (s, [])
  else
    let pending := get_pending_messages false s env.now
    if pending.isEmpty then Except.ok (s, [])
    else
      let groups := get_groups false s true
      if groups.isEmpty then Except.ok (s, [])
      else if !(env.sessionAvailable && env.sessionConnected) then
        Except.ok (s, env.sessionEvents)
      else
        match pyInt (get_setting false s "send_delay" (some "2")) with
        | none => Except.error "invalid send_delay value"
        | some _ => Except.ok (pa_loop env groups pending 0 (s, env.sessionEvents))

/-- Result dict of `AutoSender.send_now` (auto_sender.py:139-173):
`failure msg` is the `{'success': False, 'message': msg}` shape. -/
inductive SendNowResult
  | failure (message : String)
  | ok (successful failed messages_count groups_count : Nat)
deriving DecidableEq

/-- The `for message in messages` loop of `AutoSender.send_now`
(auto_sender.py:156-162): accumulates `(total_successful, total_failed)`. -/
def send_now_loop (hasClient : Bool) (outcome : Nat → Nat → SendOutcome)
    (groups : List GroupRow) : List MessageRow → Nat → Nat × Nat
  | [], _ => (0, 0)
  | _ :: ms, i =>
    let r := (send_to_multiple_groups hasClient (outcome i) groups).1
    let rest := send_now_loop hasClient outcome groups ms (i + 1)
    (r.1 + rest.1, r.2 + rest.2)

/-- `AutoSender.send_now` (auto_sender.py:131-173): targets all active
messages and all active groups, then a single `update_stats` call; no message
row is touched. -/
def send_now (env : SendEnv) (s0 : DbState) :
    Except String (SendNowResult × DbState) :=
  let s := init_database s0
  let messages := get_messages false s true
  if messages.isEmpty then Except.ok (SendNowResult.failure "No active messages", s)
  else
    let groups := get_groups false s true
    if groups.isEmpty then Except.ok (SendNowResult.failure "No active groups", s)
    else if !env.sessionAvailable then
      Except.ok (SendNowResult.failure "Session not available", s)
    else
      match pyInt (get_setting false s "send_delay" (some "2")) with
      | none => Except.error "invalid send_delay value"
      | some _ =>
        let t := send_now_loop env.clientPresent env.outcome groups messages 0
        let s2 := (update_stats false s env.today (t.1 + t.2) t.1 t.2).2
        Except.ok (SendNowResult.ok t.1 t.2 messages.length groups.length, s2)

/-! Concurrency model for the per-account send path.

`AutoSender.__init__` (auto_sender.py:18-21) creates only the
`active_sessions` dict and a flag: no lock of any kind exists in the class.
`get_or_create_session` (auto_sender.py:107-129) hands the cached
`SessionManager` to every caller, and `send_to_multiple_groups` suspends at
each `await` (the send itself and the `asyncio.sleep` pacing delay), so the
asyncio event loop is free to run another coroutine for the same account at
any of those points.  The model below embeds exactly this: two coroutines
(e.g. a scheduled `process_account` pass and a concurrent `send_now`) for the
same account, a shared session cache, and a scheduler that may advance either
task at an await point — there is no gate for it to block on. -/

/-- Progress of one send coroutine for the account: `idle n` before it enters
its delivery loop (with `n` group sends ahead), `delivering r` suspended at an
await inside `send_to_multiple_groups` with `r` sends still to finish. -/
inductive CoPhase
  | idle (sends : Nat)
  | delivering (remaining : Nat)
  | finished
deriving DecidableEq

/-- The coroutine is inside its delivery loop, actively using the session. -/
def usingSession : CoPhase → Bool
  | CoPhase.delivering _ => true
  | _ => false

/-- `get_or_create_session` when a connected manager is cached
(auto_sender.py:111-114): plain dict lookup, no lock acquisition. -/
def get_or_create_session_cached (cache : Option Nat) : Option Nat :=
  cache

/-- Run one coroutine from its current await point to its next one.  From
`idle` it performs the synchronous cache lookup and issues the first send
(reaching the first await); from `delivering` it completes one send. -/
def stepCo (cache : Option Nat) : CoPhase × Option Nat → CoPhase × Option Nat
  | (CoPhase.idle sends, _) =>
    match get_or_create_session_cached cache with
    | some h =>
      if sends == 0 then (CoPhase.finished, some h) else (CoPhase.delivering sends, some h)
    | none => (CoPhase.finished, none)
  | (CoPhase.delivering r, h) =>
    if r ≤ 1 then (CoPhase.finished, h) else (CoPhase.delivering (r - 1), h)
  | (CoPhase.finished, h) => (CoPhase.finished, h)

/-- The two concurrent send coroutines of one account, together with the
`active_sessions` entry they share and the session handle each one acquired. -/
structure PoolState where
  cache : Option Nat
  taskA : CoPhase
  taskB : CoPhase
  sessionA : Option Nat
  sessionB : Option Nat
deriving DecidableEq

/-- Which coroutine the event loop resumes next. -/
inductive TaskId
  | tA
  | tB
deriving DecidableEq

/-- One scheduling decision of the event loop: resume the chosen coroutine up
to its next await point.  Nothing in the source constrains this choice — the
class holds no per-account lock. -/
def schedStep (s : PoolState) : TaskId → PoolState
  | TaskId.tA =>
    let r := stepCo s.cache (s.taskA, s.sessionA)
    { s with taskA := r.1, sessionA := r.2 }
  | TaskId.tB =>
    let r := stepCo s.cache (s.taskB, s.sessionB)
    { s with taskB := r.1, sessionB := r.2 }

/-- Run a schedule. -/
def runSched (s : PoolState) : List TaskId → PoolState
  | [] => s
  | t :: ts => runSched (schedStep s t) ts

/-- Two send coroutines for the same account, its connected session cached
(handle 1), each with two group sends ahead of it. -/
def twoTasks : PoolState :=
  { cache := some 1, taskA := CoPhase.idle 2, taskB := CoPhase.idle 2,
    sessionA := none, sessionB := none }

/-! Helper lemmas. -/

/-- `randint` on an ordered pair of bounds yields a value inside them. -/
theorem randint_mem (draw : Nat) (lo hi : Int) (h : lo ≤ hi) :
    ∃ j, randint draw lo hi = some j ∧ lo ≤ j ∧ j ≤ hi := by
  refine ⟨lo + (draw : Int) % (hi + 1 - lo), ?_, ?_, ?_⟩
  · simp [randint, h]
  · have hnn : 0 ≤ (draw : Int) % (hi + 1 - lo) :=
      Int.emod_nonneg _ (by omega)
    omega
  · have hlt : (draw : Int) % (hi + 1 - lo) < hi + 1 - lo :=
      Int.emod_lt_of_pos _ (by omega)
    have hnn : 0 ≤ (draw : Int) % (hi + 1 - lo) :=
      Int.emod_nonneg _ (by omega)
    omega

/-- On a state that already carries the four default settings keys,
`init_database` changes nothing. -/
theorem init_database_seeded (s : DbState) (h : seeded s = true) :
    init_database s = s := by
  have h4 := h
  simp only [seeded, default_settings, List.all_cons, List.all_nil,
    Bool.and_eq_true, Bool.and_true] at h4
  obtain ⟨h1, h2, h3, h4⟩ := h4
  simp [init_database, default_settings, seed_setting, h1, h2, h3, h4]

/-- `update_stats` touches only the `statistics` table (and its sequence). -/
theorem update_stats_frame (s : DbState) (today : String) (a b c : Int) :
    ((update_stats false s today a b c).2).messages = s.messages ∧
    ((update_stats false s today a b c).2).groups = s.groups ∧
    ((update_stats false s today a b c).2).settings = s.settings ∧
    ((update_stats false s today a b c).2).user_account = s.user_account := by
  simp [update_stats]

/-- The additive-merge upsert adds the increments to the stored totals of the
date, whether or not a row for it already exists. -/
theorem statsTotalsOf_upsert (today : String) (a b c : Int) (l : List StatRow)
    (newId : Nat) :
    statsTotalsOf (stats_upsert l newId today a b c) today =
      ⟨(statsTotalsOf l today).messages_sent + a,
       (statsTotalsOf l today).successful + b,
       (statsTotalsOf l today).failed + c⟩ := by
  induction l with
  | nil => simp [stats_upsert, statsTotalsOf, List.find?]
  | cons r t ih =>
    by_cases hr : (r.date == today) = true
    · simp only [stats_upsert, List.any_cons, hr, Bool.true_or, if_pos,
        List.map_cons, statsTotalsOf, List.find?_cons, hr]
    · have hr2 : ¬ r.date = today := by simpa using hr
      have hstep : stats_upsert (r :: t) newId today a b c =
          r :: stats_upsert t newId today a b c := by
        by_cases ht : t.any (fun x => x.date == today) = true
        · simp [stats_upsert, List.any_cons, hr, ht, hr2]
        · simp [stats_upsert, List.any_cons, hr, ht]
      rw [hstep]
      simp only [statsTotalsOf, List.find?_cons, hr] at ih ⊢
      simpa [statsTotalsOf] using ih

/-- State-level reading of `statsTotalsOf_upsert`. -/
theorem get_today_stats_update (s : DbState) (today : String) (a b c : Int) :
    get_today_stats false (update_stats false s today a b c).2 today =
      ⟨(get_today_stats false s today).messages_sent + a,
       (get_today_stats false s today).successful + b,
       (get_today_stats false s today).failed + c⟩ := by
  simp [get_today_stats, update_stats, statsTotalsOf_upsert]

/-- The delivery loop attempts every group in order whatever the outcomes,
and every iteration adds exactly one to one of the two counters. -/
theorem send_to_multiple_groups_go_spec (outcome : Nat → SendOutcome) :
    ∀ (gs : List GroupRow) (i : Nat) (acc : Nat × Nat),
      (send_to_multiple_groups_go outcome gs i acc).2 = gs ∧
      (send_to_multiple_groups_go outcome gs i acc).1.1 +
        (send_to_multiple_groups_go outcome gs i acc).1.2 =
        acc.1 + acc.2 + gs.length := by
  intro gs
  induction gs with
  | nil =>
    intro i acc
    simp [send_to_multiple_groups_go]
  | cons g t ih =>
    intro i acc
    cases ho : outcome i with
    | success =>
      have h := ih (i + 1) (acc.1 + 1, acc.2)
      simp only [send_to_multiple_groups_go, ho, sm_send_message, List.length_cons]
      constructor
      · simpa using h.1
      · simp only [Bool.true_and]
        simpa [Nat.add_assoc, Nat.add_comm, Nat.add_left_comm] using h.2
    | floodWait sec =>
      have h := ih (i + 1) (acc.1, acc.2 + 1)
      simp only [send_to_multiple_groups_go, ho, sm_send_message, List.length_cons]
      constructor
      · simpa using h.1
      · simpa [Nat.add_assoc, Nat.add_comm, Nat.add_left_comm] using h.2
    | permError =>
      have h := ih (i + 1) (acc.1, acc.2 + 1)
      simp only [send_to_multiple_groups_go, ho, sm_send_message, List.length_cons]
      constructor
      · simpa using h.1
      · simpa [Nat.add_assoc, Nat.add_comm, Nat.add_left_comm] using h.2
    | raised =>
      have h := ih (i + 1) (acc.1, acc.2 + 1)
      simp only [send_to_multiple_groups_go, ho, List.length_cons]
      constructor
      · simpa using h.1
      · simpa [Nat.add_assoc, Nat.add_comm, Nat.add_left_comm] using h.2

/-- Claim C2: for every list of N groups and every outcome assignment
(success, permanent failure, throttle, or a raised exception per group),
`send_to_multiple_groups` with a live client attempts a send for every group
in repository order — a failure for one group never prevents the attempts on
the remaining groups — and the returned counters satisfy
successful + failed = N. -/
theorem send_to_multiple_groups_spec (outcome : Nat → SendOutcome)
    (groups : List GroupRow) :
    (send_to_multiple_groups true outcome groups).2 = groups ∧
    (send_to_multiple_groups true outcome groups).1.1 +
      (send_to_multiple_groups true outcome groups).1.2 = groups.length := by
  have h := send_to_multiple_groups_go_spec outcome groups 0 (0, 0)
  simpa [send_to_multiple_groups] using h

/-- Claim C1: when the account settings parse to bounds `mn ≤ mx`,
`update_message_after_send` returns `True` and rewrites exactly the row with
the given id: `total_sent` incremented by one, `last_sent = now`,
`next_send = now + j` with the jitter `j ∈ [mn, mx]` taken from the account
settings (not from the message's own stored bounds); all other fields of that
row, all other rows and all other tables are untouched. -/
theorem update_message_after_send_spec (s : DbState) (now : Int) (draw : Nat)
    (message_id : Nat) (mn mx : Int)
    (hmn : pyInt (get_setting false s "min_interval" (some "60")) = some mn)
    (hmx : pyInt (get_setting false s "max_interval" (some "90")) = some mx)
    (hle : mn ≤ mx) :
    ∃ j, mn ≤ j ∧ j ≤ mx ∧
      update_message_after_send false s now draw message_id =
        (true,
         { s with messages := s.messages.map (fun m =>
             if m.id == message_id then
               { m with total_sent := m.total_sent + 1, last_sent := some now,
                        next_send := some (now + j) }
             else m) }) := by
  obtain ⟨j, hj, h1, h2⟩ := randint_mem draw mn mx hle
  exact ⟨j, h1, h2, by simp [update_message_after_send, hmn, hmx, hj]⟩

/-- Claim C10: `add_message` with `min_minutes ≤ max_minutes` returns `True`
and appends a message whose initial `next_send` is already scheduled:
`now + j` with `j` drawn from the bounds supplied in the call (the account
settings play no part — they do not occur in the statement), `is_active`
defaulting to true and `total_sent` to 0. -/
theorem add_message_spec (s : DbState) (now : Int) (draw : Nat) (text : String)
    (mn mx : Int) (hle : mn ≤ mx) :
    ∃ j, mn ≤ j ∧ j ≤ mx ∧
      add_message false s now draw text mn mx =
        (true,
         { s with
           messages := s.messages ++
             [{ id := s.msg_seq, message_text := text, min_minutes := mn,
                max_minutes := mx, is_active := true, total_sent := 0,
                created_at := now, last_sent := none, next_send := some (now + j) }],
           msg_seq := s.msg_seq + 1 }) := by
  obtain ⟨j, hj, h1, h2⟩ := randint_mem draw mn mx hle
  exact ⟨j, h1, h2, by simp [add_message, hj]⟩

/-- Claim C6: repeated `update_stats` calls for the same date merge
additively — for any prior state the stored totals for the date grow by
exactly the sum of the two increments (never an overwrite); in particular
recording (5,3,2) and then (2,2,0) on a fresh store yields totals (7,5,2). -/
theorem update_stats_additive (s : DbState) (today : String) (a b c d e f : Int) :
    get_today_stats false
        (update_stats false (update_stats false s today a b c).2 today d e f).2 today =
      ⟨(get_today_stats false s today).messages_sent + (a + d),
       (get_today_stats false s today).successful + (b + e),
       (get_today_stats false s today).failed + (c + f)⟩ ∧
    get_today_stats false
        (update_stats false (update_stats false emptyTables today 5 3 2).2 today 2 2 0).2
        today = ⟨7, 5, 2⟩ := by
  constructor
  · rw [get_today_stats_update, get_today_stats_update]
    simp [add_assoc]
  · rw [get_today_stats_update, get_today_stats_update]
    simp [get_today_stats, statsTotalsOf, emptyTables, List.find?]

/-- Claim C4: on an account whose `auto_send` setting is "0" (and whose
settings table carries the default keys, as every account initialised by the
program does), `process_account` performs zero transport calls — the event
trace is empty — and zero repository mutations: the returned state is exactly
the input state, so messages, groups, settings and statistics are unchanged. -/
theorem process_account_disabled (env : SendEnv) (s0 : DbState)
    (hwf : seeded s0 = true)
    (h0 : get_setting false s0 "auto_send" (some "1") = some "0") :
    process_account env s0 = Except.ok (s0, []) := by
  have hinit := init_database_seeded s0 hwf
  simp [process_account, hinit, h0]

/-- Claim C5: on an account with auto-send enabled, at least one due message
and zero active groups, a scheduled pass returns before any send: the state
comes back exactly as it was (every due message keeps its `next_send`,
`total_sent` and `last_sent`) and no transport call happens, so the messages
stay due for the next cycle. -/
theorem process_account_no_groups (env : SendEnv) (s0 : DbState)
    (hwf : seeded s0 = true)
    (h1 : get_setting false s0 "auto_send" (some "1") = some "1")
    (hp : get_pending_messages false s0 env.now ≠ [])
    (hg : get_groups false s0 true = []) :
    process_account env s0 = Except.ok (s0, []) := by
  have hinit := init_database_seeded s0 hwf
  simp [process_account, hinit, h1, hp, hg]

/-- The `(total_successful, total_failed)` aggregate of one `send_now` run. -/
def send_now_totals (env : SendEnv) (s : DbState) : Nat × Nat :=
  send_now_loop env.clientPresent env.outcome (get_groups false s true)
    (get_messages false s true) 0

/-- Claim C3: on a seeded account whose `send_delay` setting parses,
`send_now` with at least one active message, at least one active group and an
available session returns the aggregate `{successful, failed,
messages_count = number of active messages, groups_count = number of active
groups}` and its one statistics write adds exactly
`(successful + failed, successful, failed)` to today's totals; with no active
message, no active group, or no session it returns the corresponding
structured failure and leaves the state untouched. -/
theorem send_now_spec (env : SendEnv) (s0 : DbState)
    (hwf : seeded s0 = true)
    (hdelay : (pyInt (get_setting false s0 "send_delay" (some "2"))).isSome = true) :
    (get_messages false s0 true = [] →
       send_now env s0 = Except.ok (SendNowResult.failure "No active messages", s0)) ∧
    (get_messages false s0 true ≠ [] → get_groups false s0 true = [] →
       send_now env s0 = Except.ok (SendNowResult.failure "No active groups", s0)) ∧
    (get_messages false s0 true ≠ [] → get_groups false s0 true ≠ [] →
       env.sessionAvailable = false →
       send_now env s0 = Except.ok (SendNowResult.failure "Session not available", s0)) ∧
    (get_messages false s0 true ≠ [] → get_groups false s0 true ≠ [] →
       env.sessionAvailable = true →
       send_now env s0 =
         Except.ok
           (SendNowResult.ok (send_now_totals env s0).1 (send_now_totals env s0).2
              (get_messages false s0 true).length (get_groups false s0 true).length,
            (update_stats false s0 env.today
              ((send_now_totals env s0).1 + (send_now_totals env s0).2)
              (send_now_totals env s0).1 (send_now_totals env s0).2).2) ∧
       get_today_stats false
           (update_stats false s0 env.today
             ((send_now_totals env s0).1 + (send_now_totals env s0).2)
             (send_now_totals env s0).1 (send_now_totals env s0).2).2 env.today =
         ⟨(get_today_stats false s0 env.today).messages_sent +
            ((send_now_totals env s0).1 + (send_now_totals env s0).2),
          (get_today_stats false s0 env.today).successful + (send_now_totals env s0).1,
          (get_today_stats false s0 env.today).failed + (send_now_totals env s0).2⟩) := by
  have hinit := init_database_seeded s0 hwf
  obtain ⟨d, hd⟩ := Option.isSome_iff_exists.mp hdelay
  refine ⟨?_, ?_, ?_, ?_⟩
  · intro hm
    simp [send_now, hinit, hm]
  · intro hm hg
    simp [send_now, hinit, hm, hg]
  · intro hm hg hs
    simp [send_now, hinit, hm, hg, hs]
  · intro hm hg hs
    refine ⟨?_, get_today_stats_update s0 env.today _ _ _⟩
    simp [send_now, hinit, hm, hg, hs, hd, send_now_totals]

/-- Claim C7: whatever result a completed (non-raising) `send_now` call
returns, the resulting repository state has the same messages table — no
`next_send`, `last_sent` or `total_sent` of any message changes, there is no
jitter rescheduling — and the same groups, settings and user tables: the
statistics table for today is the only thing it may write. -/
theorem send_now_frame (env : SendEnv) (s0 : DbState) (r : SendNowResult)
    (s1 : DbState) (hwf : seeded s0 = true)
    (h : send_now env s0 = Except.ok (r, s1)) :
    s1.messages = s0.messages ∧ s1.groups = s0.groups ∧
    s1.settings = s0.settings ∧ s1.user_account = s0.user_account := by
  have hinit := init_database_seeded s0 hwf
  rw [show send_now env s0 =
        (let s := init_database s0
         let messages := get_messages false s true
         if messages.isEmpty then
           Except.ok (SendNowResult.failure "No active messages", s)
         else
           let groups := get_groups false s true
           if groups.isEmpty then Except.ok (SendNowResult.failure "No active groups", s)
           else if !env.sessionAvailable then
             Except.ok (SendNowResult.failure "Session not available", s)
           else
             match pyInt (get_setting false s "send_delay" (some "2")) with
             | none => Except.error "invalid send_delay value"
             | some _ =>
               let t := send_now_loop env.clientPresent env.outcome groups messages 0
               let s2 := (update_stats false s env.today (t.1 + t.2) t.1 t.2).2
               Except.ok (SendNowResult.ok t.1 t.2 messages.length groups.length, s2))
      from rfl, hinit] at h
  by_cases hm : (get_messages false s0 true).isEmpty
  · simp only [hm, if_pos, Except.ok.injEq, Prod.mk.injEq] at h
    obtain ⟨-, hs⟩ := h
    subst hs
    exact ⟨rfl, rfl, rfl, rfl⟩
  · by_cases hg : (get_groups false s0 true).isEmpty
    · simp only [hm, hg, if_neg, if_pos, Bool.false_eq_true, not_false_eq_true,
        Except.ok.injEq, Prod.mk.injEq] at h
      obtain ⟨-, hs⟩ := h
      subst hs
      exact ⟨rfl, rfl, rfl, rfl⟩
    · by_cases hs : env.sessionAvailable
      · cases hd : pyInt (get_setting false s0 "send_delay" (some "2")) with
        | none =>
          simp only [hm, hg, hs, hd, Bool.false_eq_true, not_false_eq_true, if_neg,
            Bool.not_true, reduceCtorEq] at h
        | some dl =>
          simp only [hm, hg, hs, hd, Bool.false_eq_true, not_false_eq_true, if_neg,
            Bool.not_true, Except.ok.injEq, Prod.mk.injEq] at h
          obtain ⟨-, hst⟩ := h
          subst hst
          exact ⟨(update_stats_frame s0 env.today _ _ _).1,
                 (update_stats_frame s0 env.today _ _ _).2.1,
                 (update_stats_frame s0 env.today _ _ _).2.2.1,
                 (update_stats_frame s0 env.today _ _ _).2.2.2⟩
      · simp only [hm, hg, hs, Bool.false_eq_true, not_false_eq_true, if_neg,
          Bool.not_false, if_pos, Except.ok.injEq, Prod.mk.injEq] at h
        obtain ⟨-, hst⟩ := h
        subst hst
        exact ⟨rfl, rfl, rfl, rfl⟩

/-- Claim C8: every repository operation wraps its whole body in a
try/except, so an internal storage failure (the `fail` oracle) never raises
to the caller; each operation returns its documented sentinel instead — the
empty list for list queries, `none` for the single-row user read (hence
`False` from `user_exists`), the caller-supplied default for `get_setting`,
`False` for writes, and the zero-valued summary records for the two
statistics summaries. -/
theorem database_ops_fail_sentinels :
    ∀ (s : DbState) (now : Int) (today : String) (draw : Nat)
      (phone sf link title text k v : String) (tgid : Option Int)
      (mc gid mid : Nat) (mn mx a b c : Int) (act : Bool) (d : Option String),
      save_user true s now phone sf = (false, s) ∧
      get_user true s = none ∧
      user_exists true s = false ∧
      add_group true s now link title tgid mc = (false, s) ∧
      get_groups true s act = [] ∧
      update_group_status true s gid act = (false, s) ∧
      delete_group true s gid = (false, s) ∧
      add_message true s now draw text mn mx = (false, s) ∧
      get_messages true s act = [] ∧
      get_pending_messages true s now = [] ∧
      update_message_after_send true s now draw mid = (false, s) ∧
      delete_message true s mid = (false, s) ∧
      get_setting true s k d = d ∧
      set_setting true s k v = (false, s) ∧
      get_all_settings true s = [] ∧
      update_stats true s today a b c = (false, s) ∧
      get_today_stats true s today = ⟨0, 0, 0⟩ ∧
      get_total_stats true s today = ⟨0, 0, 0, 0, 0, 0⟩ := by
  intros
  exact ⟨rfl, rfl, rfl, rfl, rfl, rfl, rfl, rfl, rfl, rfl, rfl, rfl, rfl, rfl,
         rfl, rfl, rfl, rfl⟩

/-- Claim C9 fails on the code: `AutoSender.__init__` creates no lock, and
`get_or_create_session` hands the one cached `SessionManager` to every
caller, so the event loop is free to resume a second send coroutine for the
same account while the first is suspended at an await inside its delivery
loop.  Concretely, from a cached connected session and two pending sends per
coroutine, scheduling task A one step and then task B one step leaves both
coroutines simultaneously mid-delivery on the same session handle — there is
no per-account mutual-exclusion gate to serialize them. -/
theorem concurrent_sends_interleave :
    usingSession (runSched twoTasks [TaskId.tA, TaskId.tB]).taskA = true ∧
    usingSession (runSched twoTasks [TaskId.tA, TaskId.tB]).taskB = true ∧
    (runSched twoTasks [TaskId.tA, TaskId.tB]).sessionA = some 1 ∧
    (runSched twoTasks [TaskId.tA, TaskId.tB]).sessionB = some 1 :=
  ⟨rfl, rfl, rfl, rfl⟩

/-! Concrete witness instances. -/

/-- A fresh, seeded account database, as after first construction. -/
def dbSeeded : DbState := init_database emptyTables

/-- A witness environment: clock 0, no session available. -/
def envIdle : SendEnv :=
  { now := 0, today := "2026-10-12", rng := fun _ => 0, sessionAvailable := false,
    sessionConnected := false, clientPresent := false, sessionEvents := [],
    outcome := fun _ _ => SendOutcome.success }

/-- Seeded database holding one active message (id 1). -/
def dbOneMessage : DbState :=
  { dbSeeded with
    messages :=
      [{ id := 1, message_text := "hello", min_minutes := 60, max_minutes := 90,
         is_active := true, total_sent := 0, created_at := 0, last_sent := none,
         next_send := some 0 }] }

/-- Seeded database with auto-send switched off. -/
def dbDisabled : DbState := (set_setting false dbSeeded "auto_send" "0").2

/-- Seeded database with one due message and no group at all. -/
def dbDueNoGroups : DbState :=
  { dbSeeded with
    messages :=
      [{ id := 1, message_text := "hello", min_minutes := 60, max_minutes := 90,
         is_active := true, total_sent := 3, created_at := 0, last_sent := none,
         next_send := some (-1) }] }

/-- The database of the spec example for C3: settings
`min_interval = 1, max_interval = 1, send_delay = 0`, one active message and
two active groups. -/
def dbTwoGroups : DbState :=
  { emptyTables with
    settings :=
      [⟨"min_interval", "1", none⟩, ⟨"max_interval", "1", none⟩,
       ⟨"auto_send", "1", none⟩, ⟨"send_delay", "0", none⟩],
    messages :=
      [{ id := 1, message_text := "hi", min_minutes := 1, max_minutes := 1,
         is_active := true, total_sent := 0, created_at := 0, last_sent := none,
         next_send := some 0 }],
    groups :=
      [{ id := 1, group_link := "t.me/a", group_title := some "a",
         group_id_telegram := some 100, members_count := 0, is_active := true,
         added_at := 0, last_message_sent := none },
       { id := 2, group_link := "t.me/b", group_title := some "b",
         group_id_telegram := some 200, members_count := 0, is_active := true,
         added_at := 0, last_message_sent := none }] }

/-- Environment of the spec example for C3: session available and connected,
the send to the first group succeeds, the second hits a permanent error. -/
def envTwoGroups : SendEnv :=
  { now := 0, today := "2026-10-12", rng := fun _ => 0, sessionAvailable := true,
    sessionConnected := true, clientPresent := true, sessionEvents := [],
    outcome := fun _ g =>
      if g == 0 then SendOutcome.success else SendOutcome.permError }

/-- The repository state after the C3 example run: one statistics row
(2 sent, 1 successful, 1 failed) and nothing else changed. -/
def dbTwoGroupsAfter : DbState :=
  { dbTwoGroups with
    statistics :=
      [{ id := 1, date := "2026-10-12", messages_sent := 2, successful_sends := 1,
         failed_sends := 1 }],
    stat_seq := 2 }

/-- Witness for C1: seeded settings parse to bounds 60 ≤ 90 and the update of
message 1 at time 5 takes the stated shape. -/
theorem update_message_after_send_spec_witness :
    pyInt (get_setting false dbOneMessage "min_interval" (some "60")) = some 60 ∧
    pyInt (get_setting false dbOneMessage "max_interval" (some "90")) = some 90 ∧
    (60 : Int) ≤ 90 ∧
    (∃ j, (60 : Int) ≤ j ∧ j ≤ 90 ∧
      update_message_after_send false dbOneMessage 5 0 1 =
        (true,
         { dbOneMessage with messages := dbOneMessage.messages.map (fun m =>
             if m.id == 1 then
               { m with total_sent := m.total_sent + 1, last_sent := some 5,
                        next_send := some (5 + j) }
             else m) })) :=
  ⟨by decide, by decide, by decide,
   update_message_after_send_spec dbOneMessage 5 0 1 60 90 (by decide) (by decide)
     (by decide)⟩

/-- Witness for C10: adding a message with bounds 1 ≤ 1 to a fresh database. -/
theorem add_message_spec_witness :
    (1 : Int) ≤ 1 ∧
    (∃ j, (1 : Int) ≤ j ∧ j ≤ 1 ∧
      add_message false dbSeeded 0 0 "hi" 1 1 =
        (true,
         { dbSeeded with
           messages := dbSeeded.messages ++
             [{ id := dbSeeded.msg_seq, message_text := "hi", min_minutes := 1,
                max_minutes := 1, is_active := true, total_sent := 0, created_at := 0,
                last_sent := none, next_send := some (0 + j) }],
           msg_seq := dbSeeded.msg_seq + 1 })) :=
  ⟨by decide, add_message_spec dbSeeded 0 0 "hi" 1 1 (by decide)⟩

/-- Witness for C4: a seeded account with auto-send "0" is left untouched and
causes no transport call. -/
theorem process_account_disabled_witness :
    seeded dbDisabled = true ∧
    get_setting false dbDisabled "auto_send" (some "1") = some "0" ∧
    process_account envIdle dbDisabled = Except.ok (dbDisabled, []) :=
  ⟨by decide, by decide,
   process_account_disabled envIdle dbDisabled (by decide) (by decide)⟩

/-- Witness for C5: one due message, zero groups — the pass is a no-op. -/
theorem process_account_no_groups_witness :
    seeded dbDueNoGroups = true ∧
    get_setting false dbDueNoGroups "auto_send" (some "1") = some "1" ∧
    get_pending_messages false dbDueNoGroups envIdle.now ≠ [] ∧
    get_groups false dbDueNoGroups true = [] ∧
    process_account envIdle dbDueNoGroups = Except.ok (dbDueNoGroups, []) :=
  ⟨by decide, by decide, by decide, by decide,
   process_account_no_groups envIdle dbDueNoGroups (by decide) (by decide) (by decide)
     (by decide)⟩

/-- Witness for C3, the spec example: one message, two groups, one success and
one permanent failure give the aggregate `{successful := 1, failed := 1,
messages_count := 1, groups_count := 2}` and a statistics delta of (2,1,1)
from previously empty totals. -/
theorem send_now_spec_witness :
    seeded dbTwoGroups = true ∧
    (pyInt (get_setting false dbTwoGroups "send_delay" (some "2"))).isSome = true ∧
    send_now_totals envTwoGroups dbTwoGroups = (1, 1) ∧
    (get_messages false dbTwoGroups true).length = 1 ∧
    (get_groups false dbTwoGroups true).length = 2 ∧
    get_today_stats false dbTwoGroups envTwoGroups.today = ⟨0, 0, 0⟩ ∧
    (send_now envTwoGroups dbTwoGroups =
       Except.ok
         (SendNowResult.ok (send_now_totals envTwoGroups dbTwoGroups).1
            (send_now_totals envTwoGroups dbTwoGroups).2
            (get_messages false dbTwoGroups true).length
            (get_groups false dbTwoGroups true).length,
          (update_stats false dbTwoGroups envTwoGroups.today
            ((send_now_totals envTwoGroups dbTwoGroups).1 +
              (send_now_totals envTwoGroups dbTwoGroups).2)
            (send_now_totals envTwoGroups dbTwoGroups).1
            (send_now_totals envTwoGroups dbTwoGroups).2).2) ∧
     get_today_stats false
         (update_stats false dbTwoGroups envTwoGroups.today
           ((send_now_totals envTwoGroups dbTwoGroups).1 +
             (send_now_totals envTwoGroups dbTwoGroups).2)
           (send_now_totals envTwoGroups dbTwoGroups).1
           (send_now_totals envTwoGroups dbTwoGroups).2).2 envTwoGroups.today =
       ⟨(get_today_stats false dbTwoGroups envTwoGroups.today).messages_sent +
          ((send_now_totals envTwoGroups dbTwoGroups).1 +
            (send_now_totals envTwoGroups dbTwoGroups).2),
        (get_today_stats false dbTwoGroups envTwoGroups.today).successful +
          (send_now_totals envTwoGroups dbTwoGroups).1,
        (get_today_stats false dbTwoGroups envTwoGroups.today).failed +
          (send_now_totals envTwoGroups dbTwoGroups).2⟩) :=
  ⟨by decide, by decide, by decide, by decide, by decide, by decide,
   (send_now_spec envTwoGroups dbTwoGroups (by decide) (by decide)).2.2.2
     (by decide) (by decide) rfl⟩

/-- Witness for C7 on the C3 example run: the completed `send_now` writes only
the statistics row; messages, groups, settings and user tables come back
unchanged. -/
theorem send_now_frame_witness :
    seeded dbTwoGroups = true ∧
    send_now envTwoGroups dbTwoGroups =
      Except.ok (SendNowResult.ok 1 1 1 2, dbTwoGroupsAfter) ∧
    (dbTwoGroupsAfter.messages = dbTwoGroups.messages ∧
     dbTwoGroupsAfter.groups = dbTwoGroups.groups ∧
     dbTwoGroupsAfter.settings = dbTwoGroups.settings ∧
     dbTwoGroupsAfter.user_account = dbTwoGroups.user_account) :=
  ⟨by decide, by rfl,
   send_now_frame envTwoGroups dbTwoGroups (SendNowResult.ok 1 1 1 2) dbTwoGroupsAfter
     (by decide) (by rfl)⟩

end TgBot
